import Mathlib

/-!
Verification of the debt / split-expense settlement logic of the
smartexpense server (controllers/splitExpenseController.js,
controllers/debtController.js, models/splitExpenseModel.js, models/Debt.js).

Shallow embedding conventions:
* Mongo ObjectIds are modelled as natural numbers (`Id`); the string
  comparisons `a.toString() === b.toString()` in the source become plain
  equality on `Id`.
* Currency amounts are rationals; the JavaScript `x.toFixed(2)` rounding
  is modelled as round-half-up to two decimals on rationals (`round2`).
* Timestamps (`new Date()`) are natural-number instants passed in as a
  `now` parameter.
* Database state is passed explicitly: a `DbEnv` provides the friend
  documents and the user-existence check, and every persisted write is
  collected in an explicit write log.
* Persistence failures of individual `save()` calls are modelled by a
  boolean oracle indexed by the position of the split being processed;
  the oracle covers both transient storage errors and per-document
  schema-validation failures at save time.
* Only the fields that some examined code path reads or writes are kept;
  log strings and the free-text bodies of notifications are elided.
-/

namespace SmartExpense

/-- Account and document identifiers (Mongo ObjectIds in the source). -/
abbrev Id := Nat

/-- The JavaScript `String.prototype.trim`: whitespace stripped from both
ends, written structurally over the character list so that concrete runs
evaluate. -/
def jsTrim (s : String) : String :=
  ⟨((s.data.dropWhile Char.isWhitespace).reverse.dropWhile
      Char.isWhitespace).reverse⟩

/-! ## Debt records (models/Debt.js) -/

/-- A debt document, after the fields of the schema in models/Debt.js
(the unexamined reminder metadata is elided). -/
structure DebtRec where
  creditor : Id
  debtor : Id
  amount : ℚ
  description : String
  status : String
  type : String
  relatedExpenseId : Option Id
  dueDate : Option Nat
  paidAt : Option Nat
  paymentMethod : Option String
  createdAt : Nat
  updatedAt : Nat
deriving DecidableEq

/-- Schema-level validation run by mongoose when a debt document is
saved (models/Debt.js): amount at least 0.01 and positive, description
required and at most 500 characters, status and type restricted to their
enums. -/
def debtSchemaValid (d : DebtRec) : Bool :=
  decide ((1 : ℚ)/100 ≤ d.amount) && decide ((0 : ℚ) < d.amount) &&
  d.description ≠ "" && d.description.length ≤ 500 &&
  (d.status = "pending" || d.status = "paid" || d.status = "cancelled" ||
    d.status = "disputed") &&
  (d.type = "manual" || d.type = "split" || d.type = "loan")

/-- markDebtAsPaid (controllers/debtController.js, lines 37-116), modelled
at the level of the already-looked-up debt document: the authorization
check against the debtor runs first, then the already-paid check, then the
mutation (status, paidAt, optional paymentMethod); the pre-save hook of
models/Debt.js sets updatedAt. The id-format and not-found branches of the
controller are outside this record-level model. -/
def markDebtAsPaid (uid : Id) (paymentMethod : Option String) (now : Nat)
    (debt : DebtRec) : Except String DebtRec :=
  if debt.debtor ≠ uid then
    Except.error "You are not authorized to mark this debt as paid"
  else if debt.status = "paid" then
    Except.error "This debt is already marked as paid"
  else
    Except.ok
      { debt with
        status := "paid"
        paidAt := some now
        paymentMethod :=
          match paymentMethod with
          | some p => some p
          | none => debt.paymentMethod
        updatedAt := now }

/-- The mutation applied to a debt document by a successful mark-as-paid
request (controller lines 89-98 plus the pre-save hook): status paid,
paidAt stamped, paymentMethod overwritten only when one was supplied,
updatedAt stamped. -/
def markPaidResult (paymentMethod : Option String) (now : Nat)
    (debt : DebtRec) : DebtRec :=
  { debt with
    status := "paid"
    paidAt := some now
    paymentMethod :=
      match paymentMethod with
      | some p => some p
      | none => debt.paymentMethod
    updatedAt := now }

/-- The stored document after a markDebtAsPaid request: on the error
branches the controller returns before `debt.save()`, so the stored record
is unchanged. -/
def persistMarkDebtAsPaid (uid : Id) (paymentMethod : Option String)
    (now : Nat) (debt : DebtRec) : DebtRec :=
  match markDebtAsPaid uid paymentMethod now debt with
  | Except.ok d2 => d2
  | Except.error _ => debt

/-- The cancel-debt handler (routes/debtRoutes.js, DELETE /:id, lines
820-855 of the file), modelled at the level of the looked-up debt
document: only the creditor may cancel, and no status check is performed
— any debt, a paid one included, is set to cancelled; the pre-save hook
of models/Debt.js stamps updatedAt. The id-format and not-found branches
are outside this record-level model. -/
def cancelDebt (uid : Id) (now : Nat) (debt : DebtRec) :
    Except String DebtRec :=
  if debt.creditor ≠ uid then
    Except.error "Only the creditor can cancel this debt"
  else
    Except.ok { debt with status := "cancelled", updatedAt := now }

/-- createManualDebt (controllers/debtController.js, lines 119-168): the
controller only validates the id format of the debtor, builds the record
with the requester as creditor, and saves it; mongoose then applies the
schema validation of models/Debt.js. No creditor-versus-debtor comparison
occurs anywhere on this path. -/
def createManualDebt (uid debtorId : Id) (amount : ℚ) (description : String)
    (dueDate : Option Nat) (now : Nat) : Except String DebtRec :=
  let d : DebtRec :=
    { creditor := uid
      debtor := debtorId
      amount := amount
      description := description
      status := "pending"
      type := "manual"
      relatedExpenseId := none
      dueDate := dueDate
      paidAt := none
      paymentMethod := none
      createdAt := now
      updatedAt := now }
  if debtSchemaValid d then Except.ok d else Except.error "Failed to create debt"

/-! ## Split-expense creation (controllers/splitExpenseController.js) -/

/-- The friendUser field of a Friend document as the controller sees it
after `.populate`: a populated object carrying an id, a bare id value, or
absent (lines 70-97 of the controller distinguish exactly these shapes). -/
inductive FriendUserField where
  | popObj (id : Id)
  | bareId (id : Id)
  | missing
deriving DecidableEq

/-- The part of a Friend document the controller reads. -/
structure FriendDoc where
  owner : Id
  status : String
  friendUser : FriendUserField
  userId : Option Id
deriving DecidableEq

/-- The database environment of a split-expense creation request: lookup
of Friend documents by id and the user-existence check. -/
structure DbEnv where
  friendDoc : Id → Option FriendDoc
  userExists : Id → Bool

/-- `Friend.findOne (\x7b _id: fid, user: userId, status: 'active' \x7d)`
(controller lines 50-54): the document must exist, be owned by the
requesting user and be active. -/
def findActiveFriend (env : DbEnv) (uid fid : Id) : Option FriendDoc :=
  match env.friendDoc fid with
  | some f => if f.owner = uid ∧ f.status = "active" then some f else none
  | none => none

/-- Extraction of the actual user id from a Friend document (controller
lines 70-97): method 1 reads the populated friendUser object, method 2 a
bare friendUser value, method 3 the userId field; the remaining branches
(friend.user differing from the requester, or no id found at all) both
skip the split. -/
def extractUserId (f : FriendDoc) : Option Id :=
  match f.friendUser with
  | FriendUserField.popObj i => some i
  | FriendUserField.bareId i => some i
  | FriendUserField.missing =>
    match f.userId with
    | some i => some i
    | none => none

/-- One entry of the splits array of the request body. -/
structure SplitInput where
  friendId : Option Id
  email : Option String
  amount : ℚ
deriving DecidableEq

/-- One entry of validatedSplits (controller lines 40-128). -/
structure ValidatedSplit where
  friendId : Option Id
  userId : Option Id
  email : Option String
  amount : ℚ
deriving DecidableEq

/-- Validation of one split entry (controller lines 45-128): a friendId
entry is resolved through the Friend document and the user-existence
check and is dropped on any failure; an email-only entry is accepted as
is, with no account attached; an entry with neither field is dropped. -/
def resolveSplit (env : DbEnv) (uid : Id) (s : SplitInput) :
    Option ValidatedSplit :=
  match s.friendId with
  | some fid =>
    match findActiveFriend env uid fid with
    | none => none
    | some f =>
      match extractUserId f with
      | none => none
      | some au =>
        if env.userExists au then
          some { friendId := some fid, userId := some au, email := s.email,
                 amount := s.amount }
        else none
  | none =>
    match s.email with
    | some e =>
      some { friendId := none, userId := none, email := some e,
             amount := s.amount }
    | none => none

/-- `parseFloat((numTotalAmount / totalPeople).toFixed(2))`: rounding of a
rational to two decimal places, half away from zero on the positive inputs
that reach it. -/
def round2 (q : ℚ) : ℚ := ((q * 100 + 1/2).floor : ℚ) / 100

/-- The equal-mode recomputation of the split amounts (controller lines
141-148): divide the total by the number of validated splits plus one and
overwrite every amount with the rounded per-person value. -/
def applyEqualSplit (total : ℚ) (splits : List ValidatedSplit) :
    List ValidatedSplit :=
  let amountPerPerson := round2 (total / (splits.length + 1))
  splits.map fun s => { s with amount := amountPerPerson }

/-- One entry of the splits array persisted on the split-expense document
(controller lines 165-169). -/
structure SplitShare where
  friendId : Option Id
  email : Option String
  amount : ℚ
deriving DecidableEq

/-- A split-expense document. The mongoose schema of
models/splitExpenseModel.js stores createdBy, paidBy, description,
totalAmount and the splits array; the controller additionally assigns
splitType, status and settledDate, kept here as record fields. -/
structure SplitExpenseRec where
  description : String
  totalAmount : ℚ
  paidBy : Id
  createdBy : Id
  splits : List SplitShare
  splitType : String
  status : String
  settledDate : Option Nat
deriving DecidableEq

/-- Schema-level validation run by mongoose when the split-expense
document is saved (models/splitExpenseModel.js): description required,
totalAmount at least 0, at least one split, and every split with a
required friendId and a nonnegative amount. An email-only split carries
no friendId, so its presence makes the save fail. -/
def expenseSchemaValid (e : SplitExpenseRec) : Bool :=
  e.description ≠ "" && decide ((0 : ℚ) ≤ e.totalAmount) &&
  !e.splits.isEmpty &&
  e.splits.all fun s => s.friendId.isSome && decide ((0 : ℚ) ≤ s.amount)

/-- A notification document, reduced to the fields the claims mention. -/
structure NotifRec where
  userId : Id
  senderId : Id
  relatedId : Id
deriving DecidableEq

/-- One persisted write of the creation flow. -/
inductive Write where
  | expense (e : SplitExpenseRec)
  | debt (d : DebtRec)
  | notif (n : NotifRec)
deriving DecidableEq

/-- The creditor/debtor pair of a split-derived debt (controller lines
193-211): if the payer is the requester the participant owes the
requester; else if the payer is the participant the requester owes the
participant; else the participant owes the payer. -/
def debtDirection (paidByUserId uid participantId : Id) : Id × Id :=
  if paidByUserId = uid then (uid, participantId)
  else if paidByUserId = participantId then (participantId, uid)
  else (paidByUserId, participantId)

/-- The debt record built for one validated split with a resolved account
(controller lines 213-229; the metadata subdocument is elided). -/
def mkSplitDebt (uid paidByUserId : Id) (description : String) (eid : Id)
    (s : ValidatedSplit) (participantId : Id) (now : Nat) : DebtRec :=
  { creditor := (debtDirection paidByUserId uid participantId).1
    debtor := (debtDirection paidByUserId uid participantId).2
    amount := s.amount
    description := "Split: " ++ jsTrim description
    status := "pending"
    type := "split"
    relatedExpenseId := some eid
    dueDate := none
    paidAt := none
    paymentMethod := none
    createdAt := now
    updatedAt := now }

/-- Result of the debt-creation loop: records created, plus the friendId
of every split whose save failed, in iteration order. -/
structure DebtOutcome where
  created : List DebtRec
  errors : List (Option Id)
deriving DecidableEq

/-- The debt-creation loop (controller lines 185-242): email-only splits
are skipped; for each split with a resolved account the debt record is
built and saved; a failing save is caught, its friendId recorded, and the
loop continues with the next split. The index argument tracks the position
fed to the failure oracle. -/
def processDebts (uid paidByUserId : Id) (description : String) (eid : Id)
    (now : Nat) (saveFails : Nat → Bool) :
    List ValidatedSplit → Nat → DebtOutcome
  | [], _ => { created := [], errors := [] }
  | s :: rest, i =>
    match s.userId with
    | none => processDebts uid paidByUserId description eid now saveFails rest (i + 1)
    | some pid =>
      let d := mkSplitDebt uid paidByUserId description eid s pid now
      let tail := processDebts uid paidByUserId description eid now saveFails rest (i + 1)
      if saveFails i then
        { created := tail.created, errors := s.friendId :: tail.errors }
      else
        { created := d :: tail.created, errors := tail.errors }

/-- The notification loop (controller lines 254-302): email-only splits
and the requester are skipped; a failing save is caught, its friendId
recorded, and the loop continues. -/
def processNotifs (uid eid : Id) (saveFails : Nat → Bool) :
    List ValidatedSplit → Nat → List NotifRec × List (Option Id)
  | [], _ => ([], [])
  | s :: rest, i =>
    match s.userId with
    | none => processNotifs uid eid saveFails rest (i + 1)
    | some pid =>
      if pid = uid then processNotifs uid eid saveFails rest (i + 1)
      else
        let tail := processNotifs uid eid saveFails rest (i + 1)
        if saveFails i then (tail.1, s.friendId :: tail.2)
        else ({ userId := pid, senderId := uid, relatedId := eid } :: tail.1, tail.2)

/-- The request body of a split-expense creation. `paidBy = none` models
both an absent paidBy and the literal self marker of the client. -/
structure CreateRequest where
  description : String
  totalAmount : ℚ
  paidBy : Option Id
  splits : List SplitInput
  splitType : String
deriving DecidableEq

/-- The JSON response of a split-expense creation, reduced to the fields
the claims mention. -/
structure CreateResponse where
  httpStatus : Nat
  success : Bool
  message : String
  debtsCreated : Nat
  notificationsSent : Nat
  debtErrors : List (Option Id)
  notificationErrors : List (Option Id)
deriving DecidableEq

/-- `paidBy && paidBy !== 'self' ? paidBy : userId` (controller line 151). -/
def paidByUserOf (uid : Id) (req : CreateRequest) : Id :=
  match req.paidBy with
  | some p => p
  | none => uid

/-- The validated split list of a request, after the equal-mode
recomputation when it applies. -/
def validatedSplits (env : DbEnv) (uid : Id) (req : CreateRequest) :
    List ValidatedSplit :=
  let v := req.splits.filterMap (resolveSplit env uid)
  if req.splitType = "equal" then applyEqualSplit req.totalAmount v else v

/-- An error response carrying no summary data. -/
def errResponse (code : Nat) (msg : String) : CreateResponse :=
  { httpStatus := code, success := false, message := msg,
    debtsCreated := 0, notificationsSent := 0,
    debtErrors := [], notificationErrors := [] }

/-- The split-expense document the controller builds and saves (lines
160-174): trimmed description, the numeric total, payer and creator ids,
the validated splits projected onto the schema fields, the split type and
the initial active status. -/
def builtExpense (env : DbEnv) (uid : Id) (req : CreateRequest) :
    SplitExpenseRec :=
  { description := jsTrim req.description
    totalAmount := req.totalAmount
    paidBy := paidByUserOf uid req
    createdBy := uid
    splits := (validatedSplits env uid req).map fun s =>
      { friendId := s.friendId, email := s.email, amount := s.amount }
    splitType := req.splitType
    status := "active"
    settledDate := none }

/-- The exact condition under which a split-expense creation request is
accepted (response 201): the request-level field checks, the positivity
check, a nonempty validated list, and the mongoose schema validation of
the built document. Note that no comparison of the sum of the shares
against the stated total appears anywhere in this condition. -/
def createSucceeds (env : DbEnv) (uid : Id) (req : CreateRequest) : Prop :=
  ¬ (req.description = "" ∨ req.totalAmount = 0 ∨ req.splits.isEmpty = true) ∧
  ¬ req.totalAmount ≤ 0 ∧
  ¬ (req.splits.filterMap (resolveSplit env uid)).isEmpty = true ∧
  expenseSchemaValid (builtExpense env uid req) = true

/-- createSplitExpense (controller lines 12-342), returning the response
and the list of persisted writes in order. The request-level validation
(missing fields, nonpositive amount), the per-split resolution, the
equal-mode share computation, the split-expense save with its mongoose
schema validation, the debt loop and the notification loop follow the
source; a schema-invalid expense document makes `expense.save()` throw,
which the outer catch turns into a 500 response with nothing persisted.
`eid` is the identifier assigned to the new expense document. -/
def createSplitExpense (env : DbEnv) (uid eid : Id) (now : Nat)
    (req : CreateRequest) (debtSaveFails notifSaveFails : Nat → Bool) :
    CreateResponse × List Write :=
  if req.description = "" ∨ req.totalAmount = 0 ∨ req.splits.isEmpty then
    (errResponse 400
      "Missing required fields: description, totalAmount, and splits are required", [])
  else if req.totalAmount ≤ 0 then
    (errResponse 400 "Total amount must be a positive number", [])
  else if (req.splits.filterMap (resolveSplit env uid)).isEmpty then
    (errResponse 400 "No valid friends found for this expense", [])
  else
    let validated := validatedSplits env uid req
    let paidByUserId := paidByUserOf uid req
    let expense := builtExpense env uid req
    if !expenseSchemaValid expense then
      (errResponse 500 "Failed to create split expense", [])
    else
      let dout := processDebts uid paidByUserId req.description eid now
        debtSaveFails validated 0
      let nout := processNotifs uid eid notifSaveFails validated 0
      ({ httpStatus := 201, success := true,
         message := "Split expense created successfully",
         debtsCreated := dout.created.length,
         notificationsSent := nout.1.length,
         debtErrors := dout.errors,
         notificationErrors := nout.2 },
       Write.expense expense :: (dout.created.map Write.debt ++ nout.1.map Write.notif))

/-- The per-person amount of an equal-mode request: the total divided by
the number of validated splits plus one, rounded to two decimals. -/
def equalShare (env : DbEnv) (uid : Id) (req : CreateRequest) : ℚ :=
  round2 (req.totalAmount / ((req.splits.filterMap (resolveSplit env uid)).length + 1))

/-- The outcome of the debt-creation loop of a request. -/
def debtOutcomeOf (env : DbEnv) (uid eid : Id) (now : Nat)
    (req : CreateRequest) (debtSaveFails : Nat → Bool) : DebtOutcome :=
  processDebts uid (paidByUserOf uid req) req.description eid now
    debtSaveFails (validatedSplits env uid req) 0

/-- The outcome of the notification loop of a request. -/
def notifOutcomeOf (env : DbEnv) (uid eid : Id) (req : CreateRequest)
    (notifSaveFails : Nat → Bool) : List NotifRec × List (Option Id) :=
  processNotifs uid eid notifSaveFails (validatedSplits env uid req) 0

/-! ## Split-expense status update (controller lines 456-533) -/

/-- The bulk debt update run when a split expense is settled or cancelled
(controller lines 491-499): `Debt.updateMany` matches every debt linked to
the expense whose status is pending and sets its status to paid or
cancelled, its paidAt to the settlement instant or null, and its
updatedAt; no other debt is touched, and no per-debt authorization is
consulted. -/
def cascadeDebts (eid : Id) (newStatus : String) (now : Nat)
    (debts : List DebtRec) : List DebtRec :=
  debts.map fun d =>
    if d.relatedExpenseId = some eid ∧ d.status = "pending" then
      { d with
        status := if newStatus = "settled" then "paid" else "cancelled"
        paidAt := if newStatus = "settled" then some now else none
        updatedAt := now }
    else d

/-- Outcome of a status-update request: the response data plus the debt
collection after the bulk update. -/
structure StatusUpdateResult where
  httpStatus : Nat
  success : Bool
  message : String
  expense : Option SplitExpenseRec
  debts : List DebtRec
deriving DecidableEq

/-- updateSplitExpenseStatus (controller lines 456-533): the status value
is checked against the three allowed values, the expense must exist, the
requester must be its creator or its payer, and a transition to settled or
cancelled first cascades over the linked pending debts, then updates the
expense document (settledDate is set when settling). -/
def updateSplitExpenseStatus (uid eid : Id) (newStatus : String) (now : Nat)
    (expenseDoc : Option SplitExpenseRec) (debts : List DebtRec) :
    StatusUpdateResult :=
  if ¬ (newStatus = "active" ∨ newStatus = "settled" ∨ newStatus = "cancelled") then
    { httpStatus := 400, success := false, message := "Invalid status",
      expense := expenseDoc, debts := debts }
  else
    match expenseDoc with
    | none =>
      { httpStatus := 404, success := false, message := "Expense not found",
        expense := none, debts := debts }
    | some e =>
      if ¬ (e.createdBy = uid ∨ e.paidBy = uid) then
        { httpStatus := 403, success := false,
          message := "Not authorized to update this expense",
          expense := some e, debts := debts }
      else
        let debts2 :=
          if newStatus = "settled" ∨ newStatus = "cancelled" then
            cascadeDebts eid newStatus now debts
          else debts
        { httpStatus := 200, success := true,
          message := "Expense status updated successfully",
          expense := some
            { e with
              status := newStatus
              settledDate := if newStatus = "settled" then some now else e.settledDate }
          debts := debts2 }

/-! ## Concrete fixtures used by witnesses and counterexamples -/

/-- A small database: friend documents 10 and 11 owned by user 1 resolve
to users 2 and 3; all users exist. -/
def envTwoFriends : DbEnv :=
  { friendDoc := fun fid =>
      if fid = 10 then
        some { owner := 1, status := "active",
               friendUser := FriendUserField.popObj 2, userId := none }
      else if fid = 11 then
        some { owner := 1, status := "active",
               friendUser := FriendUserField.popObj 3, userId := none }
      else none
    userExists := fun _ => true }

/-- A database with no friend documents. -/
def envEmpty : DbEnv :=
  { friendDoc := fun _ => none, userExists := fun _ => true }

/-- The equal-mode scenario of the spec: total 100, two participants. -/
def reqEqual100 : CreateRequest :=
  { description := "Dinner", totalAmount := 100, paidBy := none,
    splits := [ { friendId := some 10, email := none, amount := 50 },
                { friendId := some 11, email := none, amount := 50 } ],
    splitType := "equal" }

/-- An explicit-mode request whose shares sum to 80 against a stated
total of 100. -/
def reqMismatch : CreateRequest :=
  { description := "Trip", totalAmount := 100, paidBy := none,
    splits := [ { friendId := some 10, email := none, amount := 30 },
                { friendId := some 11, email := none, amount := 50 } ],
    splitType := "explicit" }

/-- A request whose only split is email-only: no participant resolves to
a live account. -/
def reqEmailOnly : CreateRequest :=
  { description := "Lunch", totalAmount := 50, paidBy := none,
    splits := [ { friendId := none, email := some "a@b.c", amount := 50 } ],
    splitType := "equal" }

/-- The constant-false save-failure oracle. -/
def noFail : Nat → Bool := fun _ => false

/-- A save-failure oracle failing exactly at index 0. -/
def failAt0 : Nat → Bool := fun i => i = 0

/-- A pending debt owed by user 3 to user 2. -/
def debtPending : DebtRec :=
  { creditor := 2, debtor := 3, amount := 40, description := "Taxi",
    status := "pending", type := "manual", relatedExpenseId := none,
    dueDate := none, paidAt := none, paymentMethod := none,
    createdAt := 0, updatedAt := 0 }

/-- A cancelled debt owed by user 3 to user 2. -/
def debtCancelled : DebtRec :=
  { debtPending with status := "cancelled" }

/-- A paid debt owed by user 3 to user 2. -/
def debtPaid : DebtRec :=
  { debtPending with status := "paid" }

/-- The self-debt record produced by createManualDebt when the requester
names themself as debtor. -/
def debtSelf : DebtRec :=
  { creditor := 5, debtor := 5, amount := 10, description := "Lunch",
    status := "pending", type := "manual", relatedExpenseId := none,
    dueDate := none, paidAt := none, paymentMethod := none,
    createdAt := 0, updatedAt := 0 }

/-- The manual debt of user 1 against debtor 2 used by witnesses. -/
def debtManual12 : DebtRec :=
  { creditor := 1, debtor := 2, amount := 10, description := "Taxi",
    status := "pending", type := "manual", relatedExpenseId := none,
    dueDate := none, paidAt := none, paymentMethod := none,
    createdAt := 0, updatedAt := 0 }

/-- A validated split resolving friend document 10 to user 2. -/
def vsA : ValidatedSplit :=
  { friendId := some 10, userId := some 2, email := none, amount := 50 }

/-- The first validated split of the equal-mode scenario, after the
equal-share recomputation. -/
def vs10 : ValidatedSplit :=
  { friendId := some 10, userId := some 2, email := none, amount := 3333/100 }

/-- A split expense created by user 1, used by witnesses. -/
def expenseByUser1 : SplitExpenseRec :=
  { description := "Dinner", totalAmount := 100, paidBy := 1, createdBy := 1,
    splits := [ { friendId := some 10, email := none, amount := 3333/100 },
                { friendId := some 11, email := none, amount := 3333/100 } ],
    splitType := "equal", status := "active", settledDate := none }

/-- A pending debt linked to split expense 7. -/
def debtLinked7a : DebtRec :=
  { creditor := 1, debtor := 2, amount := 3333/100, description := "Split: Dinner",
    status := "pending", type := "split", relatedExpenseId := some 7,
    dueDate := none, paidAt := none, paymentMethod := none,
    createdAt := 5, updatedAt := 5 }

/-- A second pending debt linked to split expense 7. -/
def debtLinked7b : DebtRec :=
  { debtLinked7a with debtor := 3 }

/-! Decidable equality on controller results, for concrete evaluation. -/

deriving instance DecidableEq for Except

/-! # Theorems

The arithmetic on amounts lives in ℚ; the rational primitives are made
semireducible in this development so that concrete runs of the embedded
controllers can be evaluated by `decide`. -/

attribute [local semireducible] Rat.add Rat.mul Rat.sub Rat.inv

/-! ## Helper lemmas about markDebtAsPaid -/

theorem markDebtAsPaid_ok_pending (uid : Id) (pm : Option String) (now : Nat)
    (d : DebtRec) (hdeb : d.debtor = uid) (hne : ¬ d.status = "paid") :
    markDebtAsPaid uid pm now d = Except.ok (markPaidResult pm now d) := by
  simp only [markDebtAsPaid, markPaidResult]
  split_ifs with h1
  · exact absurd hdeb h1
  · rfl

theorem markDebtAsPaid_paid_not_ok (uid : Id) (pm : Option String)
    (now : Nat) (d : DebtRec) (hp : d.status = "paid") (r : DebtRec) :
    markDebtAsPaid uid pm now d ≠ Except.ok r := by
  simp only [markDebtAsPaid]
  split_ifs with h1
  · exact fun h => Except.noConfusion h
  · exact fun h => Except.noConfusion h

/-! ## Helper lemmas about cascadeDebts -/

theorem cascadeDebts_mem_update (eid : Id) (st : String) (now : Nat)
    (debts : List DebtRec) (d : DebtRec) (hm : d ∈ debts)
    (h1 : d.relatedExpenseId = some eid) (h2 : d.status = "pending") :
    ({ d with
       status := if st = "settled" then "paid" else "cancelled"
       paidAt := if st = "settled" then some now else none
       updatedAt := now }) ∈ cascadeDebts eid st now debts := by
  unfold cascadeDebts
  refine List.mem_map.2 ⟨d, hm, ?_⟩
  rw [if_pos ⟨h1, h2⟩]

theorem cascadeDebts_mem_untouched (eid : Id) (st : String) (now : Nat)
    (debts : List DebtRec) (d : DebtRec) (hm : d ∈ debts)
    (hn : ¬ (d.relatedExpenseId = some eid ∧ d.status = "pending")) :
    d ∈ cascadeDebts eid st now debts := by
  unfold cascadeDebts
  refine List.mem_map.2 ⟨d, hm, ?_⟩
  rw [if_neg hn]

theorem cascadeDebts_no_pending (eid : Id) (st : String) (now : Nat)
    (debts : List DebtRec) (d : DebtRec)
    (hd : d ∈ cascadeDebts eid st now debts) :
    ¬ (d.relatedExpenseId = some eid ∧ d.status = "pending") := by
  unfold cascadeDebts at hd
  obtain ⟨d0, _, hed⟩ := List.mem_map.1 hd
  by_cases hc : d0.relatedExpenseId = some eid ∧ d0.status = "pending"
  · rw [if_pos hc] at hed
    subst hed
    rintro ⟨-, hpend⟩
    have hlit : (if st = "settled" then "paid" else "cancelled") = "pending" := hpend
    split_ifs at hlit
    · exact absurd hlit (by decide)
    · exact absurd hlit (by decide)
  · rw [if_neg hc] at hed
    subst hed
    exact hc

theorem cascadeDebts_length (eid : Id) (st : String) (now : Nat)
    (debts : List DebtRec) :
    (cascadeDebts eid st now debts).length = debts.length := by
  unfold cascadeDebts
  exact List.length_map debts _

/-! ## Helper lemmas about split-expense creation -/

theorem resolveSplit_amount (env : DbEnv) (uid : Id) (s0 : SplitInput)
    (t : ValidatedSplit) (h : resolveSplit env uid s0 = some t) :
    t.amount = s0.amount := by
  rcases hfid : s0.friendId with - | fid
  · rcases hem : s0.email with - | e
    · simp only [resolveSplit, hfid, hem] at h
      exact Option.noConfusion h
    · simp only [resolveSplit, hfid, hem] at h
      injection h with h
      subst h
      rfl
  · cases hff : findActiveFriend env uid fid with
    | none =>
      simp only [resolveSplit, hfid, hff] at h
      exact Option.noConfusion h
    | some f =>
      cases he : extractUserId f with
      | none =>
        simp only [resolveSplit, hfid, hff, he] at h
        exact Option.noConfusion h
      | some au =>
        simp only [resolveSplit, hfid, hff, he] at h
        by_cases hx : env.userExists au = true
        · rw [if_pos hx] at h
          injection h with h
          subst h
          rfl
        · rw [if_neg hx] at h
          exact absurd h (by simp)

theorem resolveSplit_none_friendId (env : DbEnv) (uid : Id) (s0 : SplitInput)
    (t : ValidatedSplit) (h : resolveSplit env uid s0 = some t)
    (hn : t.userId = none) : t.friendId = none := by
  rcases hfid : s0.friendId with - | fid
  · rcases hem : s0.email with - | e
    · simp only [resolveSplit, hfid, hem] at h
      exact Option.noConfusion h
    · simp only [resolveSplit, hfid, hem] at h
      injection h with h
      subst h
      rfl
  · cases hff : findActiveFriend env uid fid with
    | none =>
      simp only [resolveSplit, hfid, hff] at h
      exact Option.noConfusion h
    | some f =>
      cases he : extractUserId f with
      | none =>
        simp only [resolveSplit, hfid, hff, he] at h
        exact Option.noConfusion h
      | some au =>
        simp only [resolveSplit, hfid, hff, he] at h
        by_cases hx : env.userExists au = true
        · rw [if_pos hx] at h
          injection h with h
          subst h
          exact absurd hn (by simp)
        · rw [if_neg hx] at h
          exact absurd h (by simp)

theorem validatedSplits_shape (env : DbEnv) (uid : Id) (req : CreateRequest)
    (t : ValidatedSplit) (ht : t ∈ validatedSplits env uid req) :
    ∃ t0, t0 ∈ req.splits.filterMap (resolveSplit env uid) ∧
      t.friendId = t0.friendId ∧ t.userId = t0.userId := by
  unfold validatedSplits at ht
  split_ifs at ht
  · unfold applyEqualSplit at ht
    obtain ⟨t0, ht0, he⟩ := List.mem_map.1 ht
    subst he
    exact ⟨t0, ht0, rfl, rfl⟩
  · exact ⟨t, ht, rfl, rfl⟩

theorem validatedSplits_equal_amount (env : DbEnv) (uid : Id)
    (req : CreateRequest) (heq : req.splitType = "equal")
    (s : ValidatedSplit) (hs : s ∈ validatedSplits env uid req) :
    s.amount = equalShare env uid req := by
  unfold validatedSplits at hs
  rw [if_pos heq] at hs
  unfold applyEqualSplit at hs
  obtain ⟨t, -, he⟩ := List.mem_map.1 hs
  subst he
  rfl

theorem validatedSplits_length (env : DbEnv) (uid : Id) (req : CreateRequest) :
    (validatedSplits env uid req).length =
      (req.splits.filterMap (resolveSplit env uid)).length := by
  unfold validatedSplits
  split_ifs
  · unfold applyEqualSplit
    exact List.length_map _ _
  · rfl

theorem processDebts_created_spec (uid pb : Id) (descr : String) (eid : Id)
    (now : Nat) (sf : Nat → Bool) :
    ∀ (l : List ValidatedSplit) (i : Nat) (d : DebtRec),
      d ∈ (processDebts uid pb descr eid now sf l i).created →
      ∃ s, s ∈ l ∧ ∃ pid, s.userId = some pid ∧
        d = mkSplitDebt uid pb descr eid s pid now := by
  intro l
  induction l with
  | nil =>
    intro i d h
    simp only [processDebts] at h
    exact absurd h (List.not_mem_nil d)
  | cons s rest ih =>
    intro i d h
    cases hu : s.userId with
    | none =>
      simp only [processDebts, hu] at h
      obtain ⟨t, ht, hrest⟩ := ih (i + 1) d h
      exact ⟨t, List.mem_cons_of_mem s ht, hrest⟩
    | some pid =>
      simp only [processDebts, hu] at h
      by_cases hf : sf i = true
      · rw [if_pos hf] at h
        obtain ⟨t, ht, hrest⟩ := ih (i + 1) d h
        exact ⟨t, List.mem_cons_of_mem s ht, hrest⟩
      · rw [if_neg hf] at h
        rcases List.mem_cons.1 h with he | hm
        · exact ⟨s, List.mem_cons_self s rest, pid, hu, he⟩
        · obtain ⟨t, ht, hrest⟩ := ih (i + 1) d hm
          exact ⟨t, List.mem_cons_of_mem s ht, hrest⟩

theorem processDebts_err_spec (uid pb : Id) (descr : String) (eid : Id)
    (now : Nat) (sf : Nat → Bool) :
    ∀ (l : List ValidatedSplit) (i j : Nat) (s : ValidatedSplit) (pid : Id),
      l.get? j = some s → s.userId = some pid → sf (i + j) = true →
      s.friendId ∈ (processDebts uid pb descr eid now sf l i).errors := by
  intro l
  induction l with
  | nil =>
    intro i j s pid hg
    simp at hg
  | cons a rest ih =>
    intro i j s pid hg hu hf
    cases j with
    | zero =>
      rw [List.get?_cons_zero] at hg
      injection hg with hg
      subst hg
      simp only [processDebts, hu]
      rw [if_pos (by simpa using hf)]
      exact List.mem_cons_self _ _
    | succ k =>
      rw [List.get?_cons_succ] at hg
      have hf2 : sf ((i + 1) + k) = true := by
        have he : (i + 1) + k = i + (k + 1) := by omega
        rw [he]
        exact hf
      have hrec := ih (i + 1) k s pid hg hu hf2
      cases hu2 : a.userId with
      | none =>
        simp only [processDebts, hu2]
        exact hrec
      | some pid2 =>
        simp only [processDebts, hu2]
        by_cases hfa : sf i = true
        · rw [if_pos hfa]
          exact List.mem_cons_of_mem _ hrec
        · rw [if_neg hfa]
          exact hrec

theorem processDebts_ok_spec (uid pb : Id) (descr : String) (eid : Id)
    (now : Nat) (sf : Nat → Bool) :
    ∀ (l : List ValidatedSplit) (i j : Nat) (s : ValidatedSplit) (pid : Id),
      l.get? j = some s → s.userId = some pid → sf (i + j) = false →
      mkSplitDebt uid pb descr eid s pid now ∈
        (processDebts uid pb descr eid now sf l i).created := by
  intro l
  induction l with
  | nil =>
    intro i j s pid hg
    simp at hg
  | cons a rest ih =>
    intro i j s pid hg hu hf
    cases j with
    | zero =>
      rw [List.get?_cons_zero] at hg
      injection hg with hg
      subst hg
      simp only [processDebts, hu]
      rw [if_neg (by simp [Nat.add_zero] at hf; simp [hf])]
      exact List.mem_cons_self _ _
    | succ k =>
      rw [List.get?_cons_succ] at hg
      have hf2 : sf ((i + 1) + k) = false := by
        have he : (i + 1) + k = i + (k + 1) := by omega
        rw [he]
        exact hf
      have hrec := ih (i + 1) k s pid hg hu hf2
      cases hu2 : a.userId with
      | none =>
        simp only [processDebts, hu2]
        exact hrec
      | some pid2 =>
        simp only [processDebts, hu2]
        by_cases hfa : sf i = true
        · rw [if_pos hfa]
          exact hrec
        · rw [if_neg hfa]
          exact List.mem_cons_of_mem _ hrec

theorem createSplitExpense_cases (env : DbEnv) (uid eid : Id) (now : Nat)
    (req : CreateRequest) (dF nF : Nat → Bool) :
    (¬ createSucceeds env uid req ∧
      (createSplitExpense env uid eid now req dF nF).2 = [] ∧
      (createSplitExpense env uid eid now req dF nF).1.success = false ∧
      (createSplitExpense env uid eid now req dF nF).1.httpStatus ≠ 201) ∨
    (createSucceeds env uid req ∧
      createSplitExpense env uid eid now req dF nF =
        ({ httpStatus := 201, success := true,
           message := "Split expense created successfully",
           debtsCreated := (debtOutcomeOf env uid eid now req dF).created.length,
           notificationsSent := (notifOutcomeOf env uid eid req nF).1.length,
           debtErrors := (debtOutcomeOf env uid eid now req dF).errors,
           notificationErrors := (notifOutcomeOf env uid eid req nF).2 },
         Write.expense (builtExpense env uid req) ::
           ((debtOutcomeOf env uid eid now req dF).created.map Write.debt ++
             (notifOutcomeOf env uid eid req nF).1.map Write.notif))) := by
  by_cases h1 : (req.description = "" ∨ req.totalAmount = 0 ∨ req.splits.isEmpty = true)
  · refine Or.inl ⟨fun hs => hs.1 h1, ?_, ?_, ?_⟩ <;>
      simp only [createSplitExpense, errResponse, if_pos h1] <;> decide
  · by_cases h2 : req.totalAmount ≤ 0
    · refine Or.inl ⟨fun hs => hs.2.1 h2, ?_, ?_, ?_⟩ <;>
        simp only [createSplitExpense, errResponse, if_neg h1, if_pos h2] <;> decide
    · by_cases h3 : (req.splits.filterMap (resolveSplit env uid)).isEmpty = true
      · refine Or.inl ⟨fun hs => hs.2.2.1 h3, ?_, ?_, ?_⟩ <;>
          simp only [createSplitExpense, errResponse, if_neg h1, if_neg h2, if_pos h3] <;> decide
      · by_cases h4 : expenseSchemaValid (builtExpense env uid req) = true
        · refine Or.inr ⟨⟨h1, h2, h3, h4⟩, ?_⟩
          simp only [createSplitExpense, if_neg h1, if_neg h2, if_neg h3]
          rw [if_neg (by rw [h4]; decide)]
          simp only [debtOutcomeOf, notifOutcomeOf]
        · have h5 : (!expenseSchemaValid (builtExpense env uid req)) = true := by
            revert h4
            cases expenseSchemaValid (builtExpense env uid req) <;> simp
          refine Or.inl ⟨fun hs => h4 hs.2.2.2, ?_, ?_, ?_⟩ <;>
            simp only [createSplitExpense, if_neg h1, if_neg h2, if_neg h3] <;>
            rw [if_pos h5] <;> decide

theorem createSplitExpense_debt_mem (env : DbEnv) (uid eid : Id) (now : Nat)
    (req : CreateRequest) (dF nF : Nat → Bool) (d : DebtRec) :
    Write.debt d ∈ (createSplitExpense env uid eid now req dF nF).2 ↔
    (createSucceeds env uid req ∧
      d ∈ (debtOutcomeOf env uid eid now req dF).created) := by
  rcases createSplitExpense_cases env uid eid now req dF nF with
    ⟨hn, hw, -, -⟩ | ⟨hs, he⟩
  · rw [hw]
    constructor
    · intro h
      exact absurd h (List.not_mem_nil _)
    · rintro ⟨ha, -⟩
      exact absurd ha hn
  · rw [he]
    simp only [List.mem_cons, List.mem_append, List.mem_map]
    constructor
    · rintro (hx | ⟨x, hx1, hx2⟩ | ⟨n, -, hn2⟩)
      · exact absurd hx (fun hh => Write.noConfusion hh)
      · injection hx2 with hx2
        subst hx2
        exact ⟨hs, hx1⟩
      · exact absurd hn2 (fun hh => Write.noConfusion hh)
    · rintro ⟨-, hd⟩
      exact Or.inr (Or.inl ⟨d, hd, rfl⟩)

theorem createSplitExpense_expense_mem (env : DbEnv) (uid eid : Id)
    (now : Nat) (req : CreateRequest) (dF nF : Nat → Bool)
    (e2 : SplitExpenseRec) :
    Write.expense e2 ∈ (createSplitExpense env uid eid now req dF nF).2 ↔
    (createSucceeds env uid req ∧ e2 = builtExpense env uid req) := by
  rcases createSplitExpense_cases env uid eid now req dF nF with
    ⟨hn, hw, -, -⟩ | ⟨hs, he⟩
  · rw [hw]
    constructor
    · intro h
      exact absurd h (List.not_mem_nil _)
    · rintro ⟨ha, -⟩
      exact absurd ha hn
  · rw [he]
    simp only [List.mem_cons, List.mem_append, List.mem_map]
    constructor
    · rintro (hx | ⟨x, -, hx2⟩ | ⟨n, -, hn2⟩)
      · injection hx with hx
        exact ⟨hs, hx⟩
      · exact absurd hx2 (fun hh => Write.noConfusion hh)
      · exact absurd hn2 (fun hh => Write.noConfusion hh)
    · rintro ⟨-, hd⟩
      subst hd
      exact Or.inl rfl

/-! ## Claim C10 -/

/-- C10: a successful mark-as-paid call changes only the status (to
paid), the paidAt timestamp, the paymentMethod when one is supplied, and
the updatedAt timestamp; creditor, debtor, amount, description, type,
relatedExpenseId (and dueDate, createdAt) are unchanged. -/
theorem c10_markDebtAsPaid_frame (uid : Id) (pm : Option String) (now : Nat)
    (d d2 : DebtRec) (h : markDebtAsPaid uid pm now d = Except.ok d2) :
    d2.creditor = d.creditor ∧ d2.debtor = d.debtor ∧
    d2.amount = d.amount ∧ d2.description = d.description ∧
    d2.type = d.type ∧ d2.relatedExpenseId = d.relatedExpenseId ∧
    d2.dueDate = d.dueDate ∧ d2.createdAt = d.createdAt ∧
    d2.status = "paid" ∧ d2.paidAt = some now ∧ d2.updatedAt = now ∧
    (pm = none → d2.paymentMethod = d.paymentMethod) ∧
    (∀ p, pm = some p → d2.paymentMethod = some p) := by
  simp only [markDebtAsPaid] at h
  split_ifs at h
  all_goals first
    | exact Except.noConfusion h
    | (injection h with h
       subst h
       exact ⟨rfl, rfl, rfl, rfl, rfl, rfl, rfl, rfl, rfl, rfl, rfl,
         fun hn => by rw [hn], fun p hp => by rw [hp]⟩)

/-- Witness for C10 at a concrete pending debt and payment method. -/
theorem c10_markDebtAsPaid_frame_witness :
    markDebtAsPaid 3 (some "cash") 5 debtPending =
      Except.ok (markPaidResult (some "cash") 5 debtPending) ∧
    ((markPaidResult (some "cash") 5 debtPending).creditor = debtPending.creditor ∧
     (markPaidResult (some "cash") 5 debtPending).debtor = debtPending.debtor ∧
     (markPaidResult (some "cash") 5 debtPending).amount = debtPending.amount ∧
     (markPaidResult (some "cash") 5 debtPending).description = debtPending.description ∧
     (markPaidResult (some "cash") 5 debtPending).type = debtPending.type ∧
     (markPaidResult (some "cash") 5 debtPending).relatedExpenseId = debtPending.relatedExpenseId ∧
     (markPaidResult (some "cash") 5 debtPending).dueDate = debtPending.dueDate ∧
     (markPaidResult (some "cash") 5 debtPending).createdAt = debtPending.createdAt ∧
     (markPaidResult (some "cash") 5 debtPending).status = "paid" ∧
     (markPaidResult (some "cash") 5 debtPending).paidAt = some 5 ∧
     (markPaidResult (some "cash") 5 debtPending).updatedAt = 5 ∧
     ((some "cash" : Option String) = none →
       (markPaidResult (some "cash") 5 debtPending).paymentMethod =
         debtPending.paymentMethod) ∧
     (∀ p, (some "cash" : Option String) = some p →
       (markPaidResult (some "cash") 5 debtPending).paymentMethod = some p)) :=
  ⟨markDebtAsPaid_ok_pending 3 (some "cash") 5 debtPending rfl (by decide),
   c10_markDebtAsPaid_frame 3 (some "cash") 5 debtPending
     (markPaidResult (some "cash") 5 debtPending)
     (markDebtAsPaid_ok_pending 3 (some "cash") 5 debtPending rfl (by decide))⟩

/-! ## Claim C7 -/

/-- C7: marking the same pending debt as paid twice by its debtor
succeeds the first time; the second call fails with the already-paid
error before any mutation, so the stored record is unchanged. -/
theorem c7_mark_paid_twice (uid : Id) (pm1 pm2 : Option String)
    (t1 t2 : Nat) (d : DebtRec) (hdeb : d.debtor = uid)
    (hst : d.status = "pending") :
    markDebtAsPaid uid pm1 t1 d = Except.ok (markPaidResult pm1 t1 d) ∧
    markDebtAsPaid uid pm2 t2 (markPaidResult pm1 t1 d) =
      Except.error "This debt is already marked as paid" ∧
    persistMarkDebtAsPaid uid pm2 t2 (markPaidResult pm1 t1 d) =
      markPaidResult pm1 t1 d := by
  have hne : ¬ d.status = "paid" := by rw [hst]; decide
  have hs1 : (markPaidResult pm1 t1 d).status = "paid" := rfl
  have hd1 : (markPaidResult pm1 t1 d).debtor = uid := hdeb
  have hsecond : markDebtAsPaid uid pm2 t2 (markPaidResult pm1 t1 d) =
      Except.error "This debt is already marked as paid" := by
    simp only [markDebtAsPaid]
    split_ifs with h1
    · exact absurd hd1 h1
    · rfl
  refine ⟨markDebtAsPaid_ok_pending uid pm1 t1 d hdeb hne, hsecond, ?_⟩
  simp only [persistMarkDebtAsPaid, hsecond]

/-- Witness for C7 on a concrete pending debt. -/
theorem c7_mark_paid_twice_witness :
    debtPending.debtor = 3 ∧ debtPending.status = "pending" ∧
    (markDebtAsPaid 3 (some "upi") 5 debtPending =
       Except.ok (markPaidResult (some "upi") 5 debtPending) ∧
     markDebtAsPaid 3 none 9 (markPaidResult (some "upi") 5 debtPending) =
       Except.error "This debt is already marked as paid" ∧
     persistMarkDebtAsPaid 3 none 9 (markPaidResult (some "upi") 5 debtPending) =
       markPaidResult (some "upi") 5 debtPending) :=
  ⟨rfl, rfl, c7_mark_paid_twice 3 (some "upi") none 5 9 debtPending rfl rfl⟩

/-! ## Claim C6 (corrected) -/

/-- C6 counterexample: neither paid nor cancelled is terminal. The
debtor can mark a cancelled debt as paid — markDebtAsPaid only rejects
status paid — and the mounted cancel handler sets a paid debt to
cancelled with no status check at all. -/
theorem c6_counterexample_cancelled_to_paid :
    debtCancelled.status = "cancelled" ∧
    markDebtAsPaid 3 none 5 debtCancelled =
      Except.ok (markPaidResult none 5 debtCancelled) ∧
    (markPaidResult none 5 debtCancelled).status = "paid" ∧
    debtPaid.status = "paid" ∧
    cancelDebt 2 5 debtPaid =
      Except.ok { debtPaid with status := "cancelled", updatedAt := 5 } :=
  ⟨rfl, rfl, rfl, rfl, rfl⟩

/-- C6 (amended): the debt status machine has no terminal state among
paid and cancelled. What does hold: mark-as-paid rejects an already-paid
debt, and the settlement cascade leaves every non-pending debt
untouched. But mark-as-paid transitions a cancelled debt to paid, and
the cancel handler — a manual status change — performs no status check,
so the creditor moves any debt, a paid one included, to cancelled. -/
theorem c6_no_terminal_status (uid : Id) (pm : Option String)
    (now : Nat) (d : DebtRec) (eid : Id) (st : String)
    (debts : List DebtRec) :
    (d.status = "paid" → ∀ r, markDebtAsPaid uid pm now d ≠ Except.ok r) ∧
    (d ∈ debts → ¬ d.status = "pending" → d ∈ cascadeDebts eid st now debts) ∧
    (d.status = "cancelled" → d.debtor = uid →
      markDebtAsPaid uid pm now d = Except.ok (markPaidResult pm now d)) ∧
    (d.creditor = uid →
      cancelDebt uid now d =
        Except.ok { d with status := "cancelled", updatedAt := now }) := by
  refine ⟨fun hp r => markDebtAsPaid_paid_not_ok uid pm now d hp r, ?_, ?_, ?_⟩
  · intro hm hnp
    refine cascadeDebts_mem_untouched eid st now debts d hm ?_
    rintro ⟨-, h⟩
    exact hnp h
  · intro hc hdeb
    refine markDebtAsPaid_ok_pending uid pm now d hdeb ?_
    rw [hc]
    decide
  · intro hc
    simp only [cancelDebt]
    split_ifs with h1
    · exact absurd hc h1
    · rfl

/-- Witness for the amended C6 at concrete paid and cancelled debts. -/
theorem c6_no_terminal_status_witness :
    (debtPaid.status = "paid" ∧
      ∀ r, markDebtAsPaid 3 none 5 debtPaid ≠ Except.ok r) ∧
    (debtPaid ∈ [debtPaid] ∧ ¬ debtPaid.status = "pending" ∧
      debtPaid ∈ cascadeDebts 7 "settled" 5 [debtPaid]) ∧
    (debtCancelled.status = "cancelled" ∧ debtCancelled.debtor = 3 ∧
      markDebtAsPaid 3 none 5 debtCancelled =
        Except.ok (markPaidResult none 5 debtCancelled)) ∧
    (debtPaid.creditor = 2 ∧
      cancelDebt 2 5 debtPaid =
        Except.ok { debtPaid with status := "cancelled", updatedAt := 5 }) :=
  ⟨⟨rfl, fun r =>
      (c6_no_terminal_status 3 none 5 debtPaid 7 "settled" []).1 rfl r⟩,
   ⟨List.mem_singleton.2 rfl, by decide,
      (c6_no_terminal_status 3 none 5 debtPaid 7 "settled" [debtPaid]).2.1
        (List.mem_singleton.2 rfl) (by decide)⟩,
   ⟨rfl, rfl,
      (c6_no_terminal_status 3 none 5 debtCancelled 7 "settled" []).2.2.1
        rfl rfl⟩,
   ⟨rfl,
      (c6_no_terminal_status 2 none 5 debtPaid 7 "settled" []).2.2.2 rfl⟩⟩

/-! ## Claim C2 (corrected) -/

/-- C2 counterexample: a would-be self-debt is created, not skipped.
createManualDebt accepts the requester as debtor and persists a record
with creditor equal to debtor, and the split-derived path builds a
self-debt when the payer and the resolved participant both equal the
requester. -/
theorem c2_counterexample_self_debt :
    createManualDebt 5 5 10 "Lunch" none 0 = Except.ok debtSelf ∧
    debtSelf.creditor = debtSelf.debtor ∧
    (mkSplitDebt 9 9 "x" 7
        { friendId := some 1, userId := some 9, email := none, amount := 3 }
        9 0).creditor =
      (mkSplitDebt 9 9 "x" 7
        { friendId := some 1, userId := some 9, email := none, amount := 3 }
        9 0).debtor := by
  refine ⟨by decide, rfl, rfl⟩

/-- C2 (amended): no path compares creditor with debtor. A split-derived
debt has creditor equal to debtor exactly when the payer and the resolved
participant both equal the requester (in every other configuration the
two differ); manual creation simply stores the requester as creditor and
the given debtor, with no inequality check. -/
theorem c2_no_self_debt_guard (uid paidByUserId pid : Id) (descr : String)
    (eid : Id) (s : ValidatedSplit) (now : Nat) (debtorId : Id)
    (amount : ℚ) (descr2 : String) (dd : Option Nat) (t : Nat) :
    ((mkSplitDebt uid paidByUserId descr eid s pid now).creditor =
        (mkSplitDebt uid paidByUserId descr eid s pid now).debtor ↔
      paidByUserId = uid ∧ pid = uid) ∧
    (∀ d, createManualDebt uid debtorId amount descr2 dd t = Except.ok d →
      d.creditor = uid ∧ d.debtor = debtorId) := by
  constructor
  · by_cases h1 : paidByUserId = uid
    · have hc : (mkSplitDebt uid paidByUserId descr eid s pid now).creditor = uid := by
        simp [mkSplitDebt, debtDirection, h1]
      have hd : (mkSplitDebt uid paidByUserId descr eid s pid now).debtor = pid := by
        simp [mkSplitDebt, debtDirection, h1]
      rw [hc, hd]
      constructor
      · intro h
        exact ⟨h1, h.symm⟩
      · rintro ⟨-, h⟩
        exact h.symm
    · by_cases h2 : paidByUserId = pid
      · have h3 : ¬ pid = uid := fun he => h1 (h2.trans he)
        have hc : (mkSplitDebt uid paidByUserId descr eid s pid now).creditor = pid := by
          simp [mkSplitDebt, debtDirection, h1, h2, h3]
        have hd : (mkSplitDebt uid paidByUserId descr eid s pid now).debtor = uid := by
          simp [mkSplitDebt, debtDirection, h1, h2, h3]
        rw [hc, hd]
        constructor
        · intro h
          exact absurd (h2.trans h) h1
        · rintro ⟨ha, -⟩
          exact absurd ha h1
      · have hc : (mkSplitDebt uid paidByUserId descr eid s pid now).creditor =
            paidByUserId := by
          simp [mkSplitDebt, debtDirection, h1, h2]
        have hd : (mkSplitDebt uid paidByUserId descr eid s pid now).debtor = pid := by
          simp [mkSplitDebt, debtDirection, h1, h2]
        rw [hc, hd]
        constructor
        · intro h
          exact absurd h h2
        · rintro ⟨ha, -⟩
          exact absurd ha h1
  · intro d h
    simp only [createManualDebt] at h
    split_ifs at h
    all_goals first
      | exact Except.noConfusion h
      | (injection h with h
         subst h
         exact ⟨rfl, rfl⟩)

/-- Witness for the amended C2 at concrete identities. -/
theorem c2_no_self_debt_guard_witness :
    ((mkSplitDebt 1 1 "Dinner" 7 vsA 2 5).creditor =
        (mkSplitDebt 1 1 "Dinner" 7 vsA 2 5).debtor ↔ (1 = 1 ∧ 2 = 1)) ∧
    (createManualDebt 1 2 10 "Taxi" none 0 = Except.ok debtManual12 ∧
      debtManual12.creditor = 1 ∧ debtManual12.debtor = 2) :=
  ⟨(c2_no_self_debt_guard 1 1 2 "Dinner" 7 vsA 5 2 10 "Taxi" none 0).1,
   by decide,
   (c2_no_self_debt_guard 1 1 2 "Dinner" 7 vsA 5 2 10 "Taxi" none 0).2
     debtManual12 (by decide)⟩

/-! ## Claim C5 -/

/-- C5: settling (respectively cancelling) a split event by its creator
or payer cascades over the linked debts: every linked pending debt
transitions to paid (respectively cancelled), zero linked pending debts
remain, non-matching debts are untouched, and the bulk update consults no
per-debt authorization — the conclusion holds for arbitrary creditor and
debtor fields on the linked debts. -/
theorem c5_settlement_cascade (uid eid : Id) (st : String) (now : Nat)
    (e : SplitExpenseRec) (debts : List DebtRec)
    (hst : st = "settled" ∨ st = "cancelled")
    (hauth : e.createdBy = uid ∨ e.paidBy = uid) :
    (updateSplitExpenseStatus uid eid st now (some e) debts).httpStatus = 200 ∧
    (updateSplitExpenseStatus uid eid st now (some e) debts).success = true ∧
    (updateSplitExpenseStatus uid eid st now (some e) debts).debts =
      cascadeDebts eid st now debts ∧
    (∀ d ∈ debts, d.relatedExpenseId = some eid → d.status = "pending" →
      ({ d with
         status := if st = "settled" then "paid" else "cancelled"
         paidAt := if st = "settled" then some now else none
         updatedAt := now }) ∈
        (updateSplitExpenseStatus uid eid st now (some e) debts).debts) ∧
    (∀ d ∈ (updateSplitExpenseStatus uid eid st now (some e) debts).debts,
      ¬ (d.relatedExpenseId = some eid ∧ d.status = "pending")) ∧
    (updateSplitExpenseStatus uid eid st now (some e) debts).debts.length =
      debts.length ∧
    (∀ d ∈ debts, ¬ (d.relatedExpenseId = some eid ∧ d.status = "pending") →
      d ∈ (updateSplitExpenseStatus uid eid st now (some e) debts).debts) := by
  have hr : updateSplitExpenseStatus uid eid st now (some e) debts =
      { httpStatus := 200, success := true,
        message := "Expense status updated successfully",
        expense := some
          { e with
            status := st
            settledDate := if st = "settled" then some now else e.settledDate }
        debts := cascadeDebts eid st now debts } := by
    simp only [updateSplitExpenseStatus]
    rw [if_neg (not_not_intro (Or.inr hst)), if_neg (not_not_intro hauth),
      if_pos hst]
  rw [hr]
  refine ⟨rfl, rfl, rfl, ?_, ?_, ?_, ?_⟩
  · intro d hm h1 h2
    exact cascadeDebts_mem_update eid st now debts d hm h1 h2
  · intro d hd
    exact cascadeDebts_no_pending eid st now debts d hd
  · exact cascadeDebts_length eid st now debts
  · intro d hm hn
    exact cascadeDebts_mem_untouched eid st now debts d hm hn

/-- Witness for C5: settling expense 7 with two linked pending debts
flips both to paid and leaves zero linked pending debts. -/
theorem c5_settlement_cascade_witness :
    ("settled" = "settled" ∨ "settled" = "cancelled") ∧
    (expenseByUser1.createdBy = 1 ∨ expenseByUser1.paidBy = 1) ∧
    ((updateSplitExpenseStatus 1 7 "settled" 9 (some expenseByUser1)
        [debtLinked7a, debtLinked7b]).httpStatus = 200 ∧
     (updateSplitExpenseStatus 1 7 "settled" 9 (some expenseByUser1)
        [debtLinked7a, debtLinked7b]).success = true ∧
     (updateSplitExpenseStatus 1 7 "settled" 9 (some expenseByUser1)
        [debtLinked7a, debtLinked7b]).debts =
       cascadeDebts 7 "settled" 9 [debtLinked7a, debtLinked7b] ∧
     (∀ d ∈ [debtLinked7a, debtLinked7b],
        d.relatedExpenseId = some 7 → d.status = "pending" →
        ({ d with
           status := if "settled" = "settled" then "paid" else "cancelled"
           paidAt := if "settled" = "settled" then some 9 else none
           updatedAt := 9 }) ∈
          (updateSplitExpenseStatus 1 7 "settled" 9 (some expenseByUser1)
            [debtLinked7a, debtLinked7b]).debts) ∧
     (∀ d ∈ (updateSplitExpenseStatus 1 7 "settled" 9 (some expenseByUser1)
          [debtLinked7a, debtLinked7b]).debts,
        ¬ (d.relatedExpenseId = some 7 ∧ d.status = "pending")) ∧
     (updateSplitExpenseStatus 1 7 "settled" 9 (some expenseByUser1)
        [debtLinked7a, debtLinked7b]).debts.length =
       ([debtLinked7a, debtLinked7b] : List DebtRec).length ∧
     (∀ d ∈ [debtLinked7a, debtLinked7b],
        ¬ (d.relatedExpenseId = some 7 ∧ d.status = "pending") →
        d ∈ (updateSplitExpenseStatus 1 7 "settled" 9 (some expenseByUser1)
          [debtLinked7a, debtLinked7b]).debts)) :=
  ⟨Or.inl rfl, Or.inl rfl,
   c5_settlement_cascade 1 7 "settled" 9 expenseByUser1
     [debtLinked7a, debtLinked7b] (Or.inl rfl) (Or.inl rfl)⟩

/-! ## Claim C1 -/

/-- C1: every debt record written by a split-expense creation belongs to
one resolved participant and follows the debt-direction rule evaluated
independently for that participant: payer = requester gives creditor =
requester and debtor = participant; else payer = participant gives
creditor = participant and debtor = requester; else creditor = payer and
debtor = participant. In every case the amount is that participant's
computed share. -/
theorem c1_debt_direction_rule (env : DbEnv) (uid eid : Id) (now : Nat)
    (req : CreateRequest) (dF nF : Nat → Bool) (d : DebtRec)
    (hd : Write.debt d ∈ (createSplitExpense env uid eid now req dF nF).2) :
    ∃ s, s ∈ validatedSplits env uid req ∧ ∃ pid, s.userId = some pid ∧
      d.amount = s.amount ∧
      (paidByUserOf uid req = uid → d.creditor = uid ∧ d.debtor = pid) ∧
      (¬ paidByUserOf uid req = uid → paidByUserOf uid req = pid →
        d.creditor = pid ∧ d.debtor = uid) ∧
      (¬ paidByUserOf uid req = uid → ¬ paidByUserOf uid req = pid →
        d.creditor = paidByUserOf uid req ∧ d.debtor = pid) := by
  obtain ⟨-, hmem⟩ := (createSplitExpense_debt_mem env uid eid now req dF nF d).1 hd
  obtain ⟨s, hs, pid, hu, he⟩ :=
    processDebts_created_spec uid (paidByUserOf uid req) req.description eid now dF
      (validatedSplits env uid req) 0 d hmem
  subst he
  refine ⟨s, hs, pid, hu, rfl, ?_, ?_, ?_⟩
  · intro hp
    constructor <;> simp [mkSplitDebt, debtDirection, hp]
  · intro hn hp
    have h3 : ¬ pid = uid := fun he => hn (hp.trans he)
    constructor <;> simp [mkSplitDebt, debtDirection, hn, hp, h3]
  · intro hn hnp
    constructor <;> simp [mkSplitDebt, debtDirection, hn, hnp]

/-- Witness for C1 on the concrete equal-mode scenario. -/
theorem c1_debt_direction_rule_witness :
    Write.debt (mkSplitDebt 1 1 "Dinner" 7 vs10 2 5) ∈
      (createSplitExpense envTwoFriends 1 7 5 reqEqual100 noFail noFail).2 ∧
    (∃ s, s ∈ validatedSplits envTwoFriends 1 reqEqual100 ∧
      ∃ pid, s.userId = some pid ∧
        (mkSplitDebt 1 1 "Dinner" 7 vs10 2 5).amount = s.amount ∧
        (paidByUserOf 1 reqEqual100 = 1 →
          (mkSplitDebt 1 1 "Dinner" 7 vs10 2 5).creditor = 1 ∧
          (mkSplitDebt 1 1 "Dinner" 7 vs10 2 5).debtor = pid) ∧
        (¬ paidByUserOf 1 reqEqual100 = 1 → paidByUserOf 1 reqEqual100 = pid →
          (mkSplitDebt 1 1 "Dinner" 7 vs10 2 5).creditor = pid ∧
          (mkSplitDebt 1 1 "Dinner" 7 vs10 2 5).debtor = 1) ∧
        (¬ paidByUserOf 1 reqEqual100 = 1 → ¬ paidByUserOf 1 reqEqual100 = pid →
          (mkSplitDebt 1 1 "Dinner" 7 vs10 2 5).creditor = paidByUserOf 1 reqEqual100 ∧
          (mkSplitDebt 1 1 "Dinner" 7 vs10 2 5).debtor = pid)) :=
  ⟨by decide,
   c1_debt_direction_rule envTwoFriends 1 7 5 reqEqual100 noFail noFail
     (mkSplitDebt 1 1 "Dinner" 7 vs10 2 5) (by decide)⟩

/-! ## Claim C3 -/

/-- C3: in equal mode every validated participant share, every created
debt amount, and every share recorded on the split-expense document
equals the total divided by the number of validated participants plus
one, rounded to two decimals; all shares are equal and the document
records exactly one share per validated participant, so the rounding
remainder stays with the payer and no redistribution occurs. For the
concrete scenario total 100 with two participants the share is 33.33 and
both created debts name the requester as creditor. -/
theorem c3_equal_share_rule (env : DbEnv) (uid eid : Id) (now : Nat)
    (req : CreateRequest) (dF nF : Nat → Bool)
    (heq : req.splitType = "equal") :
    (∀ s ∈ validatedSplits env uid req, s.amount = equalShare env uid req) ∧
    (∀ d : DebtRec,
      Write.debt d ∈ (createSplitExpense env uid eid now req dF nF).2 →
      d.amount = equalShare env uid req) ∧
    (∀ e2 : SplitExpenseRec,
      Write.expense e2 ∈ (createSplitExpense env uid eid now req dF nF).2 →
      e2.splits.length = (req.splits.filterMap (resolveSplit env uid)).length ∧
      ∀ sh ∈ e2.splits, sh.amount = equalShare env uid req) ∧
    equalShare envTwoFriends 1 reqEqual100 = 3333/100 ∧
    ((createSplitExpense envTwoFriends 1 7 5 reqEqual100 noFail noFail).2.filterMap
        (fun w =>
          match w with
          | Write.debt d => some (d.creditor, d.amount)
          | _ => none)) = [(1, 3333/100), (1, 3333/100)] := by
  refine ⟨fun s hs => validatedSplits_equal_amount env uid req heq s hs, ?_, ?_,
    by decide, by decide⟩
  · intro d hd
    obtain ⟨-, hmem⟩ := (createSplitExpense_debt_mem env uid eid now req dF nF d).1 hd
    obtain ⟨s, hs, pid, -, he⟩ :=
      processDebts_created_spec uid (paidByUserOf uid req) req.description eid now dF
        (validatedSplits env uid req) 0 d hmem
    subst he
    exact validatedSplits_equal_amount env uid req heq s hs
  · intro e2 he2
    obtain ⟨-, he⟩ := (createSplitExpense_expense_mem env uid eid now req dF nF e2).1 he2
    subst he
    constructor
    · unfold builtExpense
      rw [List.length_map]
      exact validatedSplits_length env uid req
    · intro sh hsh
      have hsh2 : sh ∈ (validatedSplits env uid req).map fun s =>
          ({ friendId := s.friendId, email := s.email, amount := s.amount } : SplitShare) := hsh
      obtain ⟨s, hs, he⟩ := List.mem_map.1 hsh2
      subst he
      exact validatedSplits_equal_amount env uid req heq s hs

/-- Witness for C3 on the concrete equal-mode scenario. -/
theorem c3_equal_share_rule_witness :
    reqEqual100.splitType = "equal" ∧
    ((∀ s ∈ validatedSplits envTwoFriends 1 reqEqual100,
        s.amount = equalShare envTwoFriends 1 reqEqual100) ∧
     (∀ d : DebtRec,
        Write.debt d ∈ (createSplitExpense envTwoFriends 1 7 5 reqEqual100 noFail noFail).2 →
        d.amount = equalShare envTwoFriends 1 reqEqual100) ∧
     (∀ e2 : SplitExpenseRec,
        Write.expense e2 ∈ (createSplitExpense envTwoFriends 1 7 5 reqEqual100 noFail noFail).2 →
        e2.splits.length =
          (reqEqual100.splits.filterMap (resolveSplit envTwoFriends 1)).length ∧
        ∀ sh ∈ e2.splits, sh.amount = equalShare envTwoFriends 1 reqEqual100) ∧
     equalShare envTwoFriends 1 reqEqual100 = 3333/100 ∧
     ((createSplitExpense envTwoFriends 1 7 5 reqEqual100 noFail noFail).2.filterMap
         (fun w =>
           match w with
           | Write.debt d => some (d.creditor, d.amount)
           | _ => none)) = [(1, 3333/100), (1, 3333/100)]) :=
  ⟨rfl, c3_equal_share_rule envTwoFriends 1 7 5 reqEqual100 noFail noFail rfl⟩

/-! ## Claim C4 (corrected) -/

/-- C4 counterexample: an explicit-mode request whose shares sum to 80
against a stated total of 100 — a mismatch far above the 0.01 tolerance —
is not rejected: the creation succeeds with 201 and the split event is
persisted. -/
theorem c4_counterexample_mismatch_accepted :
    reqMismatch.splitType = "explicit" ∧
    (reqMismatch.splits.map SplitInput.amount).sum = 80 ∧
    reqMismatch.totalAmount = 100 ∧
    (100 : ℚ) - 80 > 1/100 ∧
    (createSplitExpense envTwoFriends 1 7 5 reqMismatch noFail noFail).1.httpStatus = 201 ∧
    (createSplitExpense envTwoFriends 1 7 5 reqMismatch noFail noFail).1.success = true ∧
    Write.expense (builtExpense envTwoFriends 1 reqMismatch) ∈
      (createSplitExpense envTwoFriends 1 7 5 reqMismatch noFail noFail).2 := by
  decide

/-- C4 (amended): explicit-mode shares are recorded exactly as provided,
and no validation compares their sum with the stated total: a creation
request is accepted exactly when the request-level field checks, the
positivity check, the nonempty-validated-list check and the document
schema validation pass — no tolerance condition appears. -/
theorem c4_no_sum_validation (env : DbEnv) (uid eid : Id) (now : Nat)
    (req : CreateRequest) (dF nF : Nat → Bool)
    (hex : ¬ req.splitType = "equal") :
    (∀ s ∈ validatedSplits env uid req,
      ∃ s0 ∈ req.splits, s.amount = s0.amount) ∧
    ((createSplitExpense env uid eid now req dF nF).1.httpStatus = 201 ↔
      createSucceeds env uid req) := by
  constructor
  · intro s hs
    unfold validatedSplits at hs
    rw [if_neg hex] at hs
    obtain ⟨s0, hs0, hr⟩ := List.mem_filterMap.1 hs
    exact ⟨s0, hs0, resolveSplit_amount env uid s0 s hr⟩
  · rcases createSplitExpense_cases env uid eid now req dF nF with
      ⟨hn, -, -, hno⟩ | ⟨hy, he⟩
    · constructor
      · intro h
        exact absurd h hno
      · intro h
        exact absurd h hn
    · rw [he]
      constructor
      · rintro -
        exact hy
      · rintro -
        rfl

/-- Witness for the amended C4 on the mismatch request. -/
theorem c4_no_sum_validation_witness :
    ¬ reqMismatch.splitType = "equal" ∧
    ((∀ s ∈ validatedSplits envTwoFriends 1 reqMismatch,
        ∃ s0 ∈ reqMismatch.splits, s.amount = s0.amount) ∧
     ((createSplitExpense envTwoFriends 1 7 5 reqMismatch noFail noFail).1.httpStatus = 201 ↔
       createSucceeds envTwoFriends 1 reqMismatch)) :=
  ⟨by decide,
   c4_no_sum_validation envTwoFriends 1 7 5 reqMismatch noFail noFail (by decide)⟩

/-! ## Claim C8 (corrected) -/

/-- C8 counterexample: a request whose only entry is email-only has zero
participants resolving to a live account, yet the operation does not fail
with the no-valid-participants validation error: the validated list is
nonempty, creation proceeds, and the split-event save fails schema
validation (friendId required), producing a generic 500 failure
instead. -/
theorem c8_counterexample_email_only :
    (∀ t ∈ reqEmailOnly.splits.filterMap (resolveSplit envEmpty 1), t.userId = none) ∧
    (createSplitExpense envEmpty 1 7 0 reqEmailOnly noFail noFail).1.httpStatus = 500 ∧
    (createSplitExpense envEmpty 1 7 0 reqEmailOnly noFail noFail).1.message =
      "Failed to create split expense" ∧
    ¬ (createSplitExpense envEmpty 1 7 0 reqEmailOnly noFail noFail).1.message =
      "No valid friends found for this expense" := by
  decide

/-- C8 (amended): when zero participants resolve to a live account the
operation always fails and writes nothing, but the no-valid-participants
validation error is produced exactly when the validated list is empty
(every friend reference failed and no email-only entry was supplied,
with the earlier request-level checks passing); email-only entries keep
the validated list nonempty and the failure then happens at the
split-event save instead. -/
theorem c8_no_resolution_outcome (env : DbEnv) (uid eid : Id) (now : Nat)
    (req : CreateRequest) (dF nF : Nat → Bool)
    (hnores : ∀ t ∈ req.splits.filterMap (resolveSplit env uid), t.userId = none) :
    (createSplitExpense env uid eid now req dF nF).1.success = false ∧
    (createSplitExpense env uid eid now req dF nF).2 = [] ∧
    ((createSplitExpense env uid eid now req dF nF).1.message =
        "No valid friends found for this expense" ↔
      (req.splits.filterMap (resolveSplit env uid) = [] ∧
       ¬ (req.description = "" ∨ req.totalAmount = 0 ∨ req.splits.isEmpty = true) ∧
       ¬ req.totalAmount ≤ 0)) := by
  by_cases h1 : (req.description = "" ∨ req.totalAmount = 0 ∨ req.splits.isEmpty = true)
  · have heq : createSplitExpense env uid eid now req dF nF =
        (errResponse 400
          "Missing required fields: description, totalAmount, and splits are required",
         []) := by
      simp only [createSplitExpense, if_pos h1]
    rw [heq]
    refine ⟨rfl, rfl, ?_⟩
    constructor
    · intro hmsg
      exact absurd hmsg (by decide)
    · rintro ⟨-, hno, -⟩
      exact absurd h1 hno
  · by_cases h2 : req.totalAmount ≤ 0
    · have heq : createSplitExpense env uid eid now req dF nF =
          (errResponse 400 "Total amount must be a positive number", []) := by
        simp only [createSplitExpense, if_neg h1, if_pos h2]
      rw [heq]
      refine ⟨rfl, rfl, ?_⟩
      constructor
      · intro hmsg
        exact absurd hmsg (by decide)
      · rintro ⟨-, -, hno⟩
        exact absurd h2 hno
    · by_cases h3 : (req.splits.filterMap (resolveSplit env uid)).isEmpty = true
      · have hemp : req.splits.filterMap (resolveSplit env uid) = [] := by
          cases hl : req.splits.filterMap (resolveSplit env uid) with
          | nil => rfl
          | cons a t =>
            rw [hl] at h3
            exact absurd h3 (by simp)
        have heq : createSplitExpense env uid eid now req dF nF =
            (errResponse 400 "No valid friends found for this expense", []) := by
          simp only [createSplitExpense, if_neg h1, if_neg h2, if_pos h3]
        rw [heq]
        refine ⟨rfl, rfl, ?_⟩
        constructor
        · rintro -
          exact ⟨hemp, h1, h2⟩
        · rintro -
          rfl
      · have hne : req.splits.filterMap (resolveSplit env uid) ≠ [] := by
          intro hl
          rw [hl] at h3
          exact h3 rfl
        obtain ⟨t0, ht0⟩ := List.exists_mem_of_ne_nil _ hne
        have hfr : t0.friendId = none := by
          obtain ⟨s0, hs0, hr⟩ := List.mem_filterMap.1 ht0
          exact resolveSplit_none_friendId env uid s0 t0 hr (hnores t0 ht0)
        have hval : ∃ t, t ∈ validatedSplits env uid req ∧ t.friendId = none := by
          unfold validatedSplits
          split_ifs with hsplit
          · simp only [applyEqualSplit]
            exact ⟨_, List.mem_map_of_mem _ ht0, hfr⟩
          · exact ⟨t0, ht0, hfr⟩
        have h4 : expenseSchemaValid (builtExpense env uid req) = false := by
          obtain ⟨t, htv, htf⟩ := hval
          by_contra hcon
          have h4t : expenseSchemaValid (builtExpense env uid req) = true := by
            cases hx : expenseSchemaValid (builtExpense env uid req)
            · exact absurd hx hcon
            · rfl
          have hall : (builtExpense env uid req).splits.all
              (fun s => s.friendId.isSome && decide ((0 : ℚ) ≤ s.amount)) = true := by
            have hcopy := h4t
            unfold expenseSchemaValid at hcopy
            rw [Bool.and_eq_true] at hcopy
            exact hcopy.2
          have hmem2 : (SplitShare.mk t.friendId t.email t.amount) ∈
              (builtExpense env uid req).splits := by
            unfold builtExpense
            exact List.mem_map_of_mem _ htv
          have hp := List.all_eq_true.mp hall _ hmem2
          simp [htf] at hp
        have heq : createSplitExpense env uid eid now req dF nF =
            (errResponse 500 "Failed to create split expense", []) := by
          simp only [createSplitExpense, if_neg h1, if_neg h2, if_neg h3]
          rw [if_pos (by rw [h4]; decide)]
        rw [heq]
        refine ⟨rfl, rfl, ?_⟩
        constructor
        · intro hmsg
          exact absurd hmsg (by decide)
        · rintro ⟨hemp, -, -⟩
          exact absurd hemp hne

/-- Witness for the amended C8 on the email-only request. -/
theorem c8_no_resolution_outcome_witness :
    (∀ t ∈ reqEmailOnly.splits.filterMap (resolveSplit envEmpty 1), t.userId = none) ∧
    ((createSplitExpense envEmpty 1 7 0 reqEmailOnly noFail noFail).1.success = false ∧
     (createSplitExpense envEmpty 1 7 0 reqEmailOnly noFail noFail).2 = [] ∧
     ((createSplitExpense envEmpty 1 7 0 reqEmailOnly noFail noFail).1.message =
         "No valid friends found for this expense" ↔
       (reqEmailOnly.splits.filterMap (resolveSplit envEmpty 1) = [] ∧
        ¬ (reqEmailOnly.description = "" ∨ reqEmailOnly.totalAmount = 0 ∨
           reqEmailOnly.splits.isEmpty = true) ∧
        ¬ reqEmailOnly.totalAmount ≤ 0))) :=
  ⟨by decide,
   c8_no_resolution_outcome envEmpty 1 7 0 reqEmailOnly noFail noFail (by decide)⟩

/-! ## Claim C9 -/

/-- C9: in a successful split-expense creation, a participant whose debt
save fails is recorded in the returned warnings list, while the split
event and the debt records of every other participant — before or after
the failure — are persisted: the loop continues and nothing is rolled
back, and the response still reports success. -/
theorem c9_partial_debt_failure (env : DbEnv) (uid eid : Id) (now : Nat)
    (req : CreateRequest) (dF nF : Nat → Bool)
    (h201 : (createSplitExpense env uid eid now req dF nF).1.httpStatus = 201) :
    (createSplitExpense env uid eid now req dF nF).1.success = true ∧
    Write.expense (builtExpense env uid req) ∈
      (createSplitExpense env uid eid now req dF nF).2 ∧
    (∀ j s pid, (validatedSplits env uid req).get? j = some s →
      s.userId = some pid → dF j = true →
      s.friendId ∈ (createSplitExpense env uid eid now req dF nF).1.debtErrors) ∧
    (∀ j s pid, (validatedSplits env uid req).get? j = some s →
      s.userId = some pid → dF j = false →
      Write.debt (mkSplitDebt uid (paidByUserOf uid req) req.description eid s pid now) ∈
        (createSplitExpense env uid eid now req dF nF).2) := by
  rcases createSplitExpense_cases env uid eid now req dF nF with
    ⟨-, -, -, hno⟩ | ⟨-, he⟩
  · exact absurd h201 hno
  · rw [he]
    refine ⟨rfl, List.mem_cons_self _ _, ?_, ?_⟩
    · intro j s pid hg hu hfj
      exact processDebts_err_spec uid (paidByUserOf uid req) req.description eid now dF
        (validatedSplits env uid req) 0 j s pid hg hu (by simpa using hfj)
    · intro j s pid hg hu hfj
      have hmem := processDebts_ok_spec uid (paidByUserOf uid req) req.description eid now dF
        (validatedSplits env uid req) 0 j s pid hg hu (by simpa using hfj)
      exact List.mem_cons_of_mem _
        (List.mem_append.2 (Or.inl (List.mem_map_of_mem _ hmem)))

/-- Witness for C9: the equal-mode scenario with the debt save failing at
the first participant — the warning names friend 10, the second debt and
the expense are still persisted, and the response reports success. -/
theorem c9_partial_debt_failure_witness :
    (createSplitExpense envTwoFriends 1 7 5 reqEqual100 failAt0 noFail).1.httpStatus = 201 ∧
    ((createSplitExpense envTwoFriends 1 7 5 reqEqual100 failAt0 noFail).1.success = true ∧
     Write.expense (builtExpense envTwoFriends 1 reqEqual100) ∈
       (createSplitExpense envTwoFriends 1 7 5 reqEqual100 failAt0 noFail).2 ∧
     (∀ j s pid, (validatedSplits envTwoFriends 1 reqEqual100).get? j = some s →
       s.userId = some pid → failAt0 j = true →
       s.friendId ∈
         (createSplitExpense envTwoFriends 1 7 5 reqEqual100 failAt0 noFail).1.debtErrors) ∧
     (∀ j s pid, (validatedSplits envTwoFriends 1 reqEqual100).get? j = some s →
       s.userId = some pid → failAt0 j = false →
       Write.debt (mkSplitDebt 1 (paidByUserOf 1 reqEqual100) reqEqual100.description 7 s pid 5) ∈
         (createSplitExpense envTwoFriends 1 7 5 reqEqual100 failAt0 noFail).2)) :=
  ⟨by decide,
   c9_partial_debt_failure envTwoFriends 1 7 5 reqEqual100 failAt0 noFail (by decide)⟩

end SmartExpense
